import Mathlib

/-!
Shallow embedding of the Safe-Pulse safety-event engine: the storage layer
(`database.py`), the agent handlers (`agent_handlers.py`) and the SMS fan-out
(`sms_service.py`).

Modelling conventions:
* SQLite tables are in-memory lists of rows; `SELECT ... WHERE id = ?` with
  `fetchone` is `List.find?`, and `UPDATE ... WHERE` is `updateWhere` (it
  rewrites every matching row, exactly as the SQL statement does).
* `datetime.now().isoformat()` is threaded through as an explicit
  `now : String` argument.
* The LLM classifier collaborator is modelled by the response value the
  handler receives: `none` stands for a response that `json.loads` cannot
  parse (in the source this raises and control lands in the `except`
  branch); `some analysis` is a parsed JSON object whose optional fields
  model `dict.get` with its defaults.
* The Twilio transport is an oracle `send : String → String → String`
  mapping (phone, message) to the resulting status string
  ("sent" / "simulated" / "error"); nothing downstream reads any other
  field of the `send_sms` result.
* Latitude/longitude arithmetic is over `ℝ` (the source uses Python
  floats); `round(x, 2)` is `round2`.  The one observable difference are
  exact rounding ties (Python rounds half to even, `round2` rounds half
  up), which no statement below depends on.
* The f-string rendering of a coordinate pair inside the Google-maps link
  is modelled by an oracle `render : ℝ → ℝ → String`.
-/

namespace SafePulse

/-- One SQL `UPDATE ... WHERE p` over a table held as a list: every row
satisfying `p` is rewritten by `f`, all other rows are kept. -/
def updateWhere {α : Type} (p : α → Bool) (f : α → α) (l : List α) : List α :=
  l.map fun x => if p x then f x else x

/-- Row of the `reports` table (`database.py`, `create_tables`). -/
structure Report where
  id : String
  reporter_id : String
  description : String
  anonymized_description : String
  latitude : ℝ
  longitude : ℝ
  severity : String
  categories : List String
  status : String
  verification_count : ℕ
  created_at : String
  updated_at : String

/-- The `route_safety` JSON blob stored with a journey. -/
structure RouteSafety where
  overall_risk : String
  risk_areas_on_route : List String
  time_factor : String
  alternative_routes_available : Bool

/-- Row of the `journeys` table. -/
structure Journey where
  id : String
  user_id : String
  start_latitude : ℝ
  start_longitude : ℝ
  destination_latitude : ℝ
  destination_longitude : ℝ
  travel_mode : String
  status : String
  route_safety : RouteSafety
  start_time : String
  end_time : Option String

/-- Row of the `alerts` table. -/
structure Alert where
  id : String
  reporter_id : String
  alert_type : String
  description : String
  latitude : ℝ
  longitude : ℝ
  severity : String
  status : String
  verification_count : ℕ
  created_at : String
  updated_at : String

/-- Row of the `emergency_contacts` table.  `phone` and `name` may be SQL
NULL, hence `Option`. -/
structure EmergencyContact where
  id : ℕ
  user_id : String
  name : Option String
  phone : Option String
  relationship : Option String
  created_at : String

/-- Row of the append-only `sos_history` table. -/
structure SosEvent where
  user_id : String
  latitude : ℝ
  longitude : ℝ
  message : String
  contacts_notified : List String
  created_at : String

/-- The persistent store of `database.py` (`Database`), as in-memory
tables. -/
structure Database where
  reports : List Report
  journeys : List Journey
  alerts : List Alert
  emergency_contacts : List EmergencyContact
  sos_history : List SosEvent

/-- `Database.create_report` (`database.py` line 182): inserts a row with
`verification_count = 0`. -/
def Database.create_report (db : Database) (report_id reporter_id description
    anonymized_description : String) (latitude longitude : ℝ)
    (severity : String) (categories : List String) (status : String)
    (now : String) : Database :=
  { db with reports := db.reports ++
      [{ id := report_id, reporter_id := reporter_id,
         description := description,
         anonymized_description := anonymized_description,
         latitude := latitude, longitude := longitude, severity := severity,
         categories := categories, status := status, verification_count := 0,
         created_at := now, updated_at := now }] }

/-- `Database.get_report` (line 199): `SELECT * FROM reports WHERE id = ?`,
`fetchone`. -/
def Database.get_report (db : Database) (report_id : String) : Option Report :=
  db.reports.find? fun r => r.id == report_id

/-- `Database.verify_report` (lines 234-258).  On confirm the fetched row's
count plus one is written back (and, reaching 3, the status is set to
"verified"); on any other `verification_type` the status is set to
"disputed".  Returns `false` iff the id is unknown. -/
def Database.verify_report (db : Database) (report_id verification_type
    now : String) : Bool × Database :=
  match db.get_report report_id with
  | none => (false, db)
  | some report =>
    if verification_type = "confirm" then
      let new_count := report.verification_count + 1
      let reports1 := updateWhere (fun r => r.id == report_id)
        (fun r => { r with verification_count := new_count, updated_at := now })
        db.reports
      let db1 : Database := { db with reports := reports1 }
      if new_count ≥ 3 then
        let reports2 := updateWhere (fun r => r.id == report_id)
          (fun r => { r with status := "verified", updated_at := now })
          db1.reports
        (true, { db1 with reports := reports2 })
      else
        (true, db1)
    else
      let reports1 := updateWhere (fun r => r.id == report_id)
        (fun r => { r with status := "disputed", updated_at := now })
        db.reports
      (true, { db with reports := reports1 })

/-- `Database.create_journey` (line 261): the row is inserted with status
"active" and no end time. -/
def Database.create_journey (db : Database) (journey_id user_id : String)
    (start_latitude start_longitude destination_latitude
     destination_longitude : ℝ) (travel_mode : String)
    (route_safety : RouteSafety) (now : String) : Database :=
  { db with journeys := db.journeys ++
      [{ id := journey_id, user_id := user_id,
         start_latitude := start_latitude, start_longitude := start_longitude,
         destination_latitude := destination_latitude,
         destination_longitude := destination_longitude,
         travel_mode := travel_mode, status := "active",
         route_safety := route_safety, start_time := now, end_time := none }] }

/-- `Database.update_journey_status` (lines 278-294): when no end time is
supplied and the new status is "completed", the current time is used; the
returned Bool is `rowcount > 0`. -/
def Database.update_journey_status (db : Database) (journey_id status : String)
    (end_time : Option String) (now : String) : Bool × Database :=
  let end_time := if end_time = none ∧ status = "completed" then some now
    else end_time
  let g : Journey → Journey := fun j =>
    match end_time with
    | some t => { j with status := status, end_time := some t }
    | none => { j with status := status }
  (db.journeys.any (fun j => j.id == journey_id),
   { db with journeys := updateWhere (fun j => j.id == journey_id) g db.journeys })

/-- `Database.get_journey` (line 296). -/
def Database.get_journey (db : Database) (journey_id : String) : Option Journey :=
  db.journeys.find? fun j => j.id == journey_id

/-- `Database.create_alert` (lines 308-322): the row is inserted with
`verification_count = 1` (self-verified at creation). -/
def Database.create_alert (db : Database) (alert_id reporter_id alert_type
    description : String) (latitude longitude : ℝ) (severity status
    now : String) : Database :=
  { db with alerts := db.alerts ++
      [{ id := alert_id, reporter_id := reporter_id, alert_type := alert_type,
         description := description, latitude := latitude,
         longitude := longitude, severity := severity, status := status,
         verification_count := 1, created_at := now, updated_at := now }] }

/-- `Database.get_alert` (line 324). -/
def Database.get_alert (db : Database) (alert_id : String) : Option Alert :=
  db.alerts.find? fun a => a.id == alert_id

/-- `Database.verify_alert` (lines 358-382): like `verify_report`, except
that reaching count 3 escalates `severity` to "high" when the fetched row's
severity was not already "high". -/
def Database.verify_alert (db : Database) (alert_id verification_type
    now : String) : Bool × Database :=
  match db.get_alert alert_id with
  | none => (false, db)
  | some alert =>
    if verification_type = "confirm" then
      let new_count := alert.verification_count + 1
      let alerts1 := updateWhere (fun a => a.id == alert_id)
        (fun a => { a with verification_count := new_count, updated_at := now })
        db.alerts
      let db1 : Database := { db with alerts := alerts1 }
      if new_count ≥ 3 ∧ alert.severity ≠ "high" then
        let alerts2 := updateWhere (fun a => a.id == alert_id)
          (fun a => { a with severity := "high", updated_at := now })
          db1.alerts
        (true, { db1 with alerts := alerts2 })
      else
        (true, db1)
    else
      let alerts1 := updateWhere (fun a => a.id == alert_id)
        (fun a => { a with status := "disputed", updated_at := now })
        db.alerts
      (true, { db with alerts := alerts1 })

/-- `Database.get_emergency_contacts` (line 165). -/
def Database.get_emergency_contacts (db : Database) (user_id : String) :
    List EmergencyContact :=
  db.emergency_contacts.filter fun c => c.user_id == user_id

/-- `Database.create_sos` (lines 403-415): appends to the `sos_history`
table. -/
def Database.create_sos (db : Database) (user_id : String)
    (latitude longitude : ℝ) (message : String)
    (contacts_notified : List String) (now : String) : Database :=
  { db with sos_history := db.sos_history ++
      [{ user_id := user_id, latitude := latitude, longitude := longitude,
         message := message, contacts_notified := contacts_notified,
         created_at := now }] }

/-! ## SMS service (`sms_service.py`) -/

/-- Per-contact entry of the list returned by `send_sos_notifications`:
the `send_sms` status tagged with the contact's name and the phone number
actually dialled. -/
structure NotifResult where
  status : String
  contact_name : Option String
  contact_phone : String

/-- Truthiness of `contact.get('phone')` in the loop of
`send_sos_notifications`: present and non-empty. -/
def has_phone (c : EmergencyContact) : Bool :=
  match c.phone with
  | none => false
  | some p => p ≠ ""

/-- The country-code normalisation of `sms_service.py` lines 94-95: a
number not starting with "+" has it prepended. -/
def with_country_code (p : String) : String :=
  if p.startsWith "+" then p else "+" ++ p

/-- The SOS message built by `send_sos_notifications` (lines 79-87);
`location_q` is the rendered "lat,lng" query of the Google-maps link. -/
def sos_message (user_name location_q message : String) : String :=
  let maps_link := "https://www.google.com/maps?q=" ++ location_q
  let base := "EMERGENCY SOS from " ++ user_name ++ "! Location: " ++ maps_link
  let base := if message ≠ "" then base ++ "\nMessage: " ++ message else base
  base ++ "\nPlease respond immediately or contact authorities."

/-- `SMSService.send_sos_notifications` (lines 63-102): iterates over the
contacts, silently skipping those without a truthy phone, normalises the
phone number, sends, and records the outcome tagged with name and dialled
number. -/
def send_sos_notifications (send : String → String → String)
    (user_name location_q message : String)
    (emergency_contacts : List EmergencyContact) : List NotifResult :=
  emergency_contacts.filterMap fun contact =>
    match contact.phone with
    | none => none
    | some p =>
      if p = "" then none
      else
        let phone := if p.startsWith "+" then p else "+" ++ p
        some { status := send phone (sos_message user_name location_q message),
               contact_name := contact.name, contact_phone := phone }

/-! ## Incident reporting handler (`agent_handlers.py`, `IncidentReportingHandler`) -/

/-- Parsed classifier response for `analyze_and_anonymize_report`; each
field models `analysis.get(key, default)` — `none` means the key is
absent. -/
structure ReportAnalysis where
  anonymized_text : Option String
  severity : Option String
  categories : Option (List String)
  requires_immediate_action : Option Bool

/-- The dict returned by `IncidentReportingHandler.submit_report`. -/
structure SubmitReportResult where
  report_id : String
  severity : String
  categories : List String
  requires_immediate_action : Bool
  message : String

/-- `IncidentReportingHandler.submit_report` (`agent_handlers.py` lines
17-89).  `report_id` is the pre-generated uuid; `response` is the agent's
reply (`none` = `json.loads` raises, control reaches the `except` branch).
Note that the `except` branch of the source returns the fallback dict
without calling `create_report`. -/
def submit_report (db : Database) (report_id user_id report_text : String)
    (latitude longitude : ℝ) (response : Option ReportAnalysis)
    (now : String) : SubmitReportResult × Database :=
  match response with
  | some analysis =>
    let anonymized_text := analysis.anonymized_text.getD report_text
    let severity := analysis.severity.getD "medium"
    let categories := analysis.categories.getD ["general_concern"]
    let requires_immediate_action := analysis.requires_immediate_action.getD false
    let db1 := db.create_report report_id user_id report_text anonymized_text
      latitude longitude severity categories "submitted" now
    ({ report_id := report_id, severity := severity, categories := categories,
       requires_immediate_action := requires_immediate_action,
       message := "Your report has been submitted anonymously." }, db1)
  | none =>
    ({ report_id := report_id, severity := "medium",
       categories := ["general_concern"], requires_immediate_action := false,
       message := "Your report has been submitted anonymously, but there was an issue with analysis." },
     db)

/-! ## Safety navigator handler (`agent_handlers.py`, `SafetyNavigatorHandler`) -/

/-- `SafetyNavigatorHandler._calculate_safety_score` (lines 500-513). -/
def calculate_safety_score (journey : Journey) : ℤ :=
  let score : ℤ := 100
  let score :=
    if journey.route_safety.overall_risk = "high" then score - 20
    else if journey.route_safety.overall_risk = "medium" then score - 10
    else score
  max 0 score

/-- The summary dict built by `end_journey`. -/
structure JourneySummary where
  journey_id : String
  start_time : String
  end_time : Option String
  total_alerts : ℕ
  safety_score : ℤ

/-- `SafetyNavigatorHandler.end_journey` (lines 383-418): no status check —
any existing journey is forced to "completed". -/
def end_journey (db : Database) (journey_id now : String) :
    Except String JourneySummary × Database :=
  match db.get_journey journey_id with
  | none => (Except.error "Journey not found", db)
  | some journey =>
    let db1 := (db.update_journey_status journey_id "completed" none now).2
    let updated_end_time :=
      match db1.get_journey journey_id with
      | some j => j.end_time
      | none => none
    (Except.ok { journey_id := journey_id, start_time := journey.start_time,
                 end_time := updated_end_time, total_alerts := 0,
                 safety_score := calculate_safety_score journey }, db1)

/-- The `emergency_details` dict of `trigger_emergency`: the handler reads
`latitude`, `longitude` and `description` with `dict.get`. -/
structure EmergencyDetails where
  latitude : Option ℝ
  longitude : Option ℝ
  description : Option String

/-- The success dict of `trigger_emergency`. -/
structure EmergencyResponse where
  emergency_id : String
  notified_contacts : ℕ
  authorities_alerted : Bool
  notification_results : List NotifResult

/-- `SafetyNavigatorHandler.trigger_emergency` (lines 420-477): the only
check is existence; the journey status is set to "emergency"
unconditionally.  A missing latitude/longitude in the details falls back
per coordinate to the journey's start location.  `emergency_id` is the
fresh uuid of the response. -/
def trigger_emergency (db : Database) (journey_id : String)
    (details : EmergencyDetails) (send : String → String → String)
    (render : ℝ → ℝ → String) (emergency_id now : String) :
    Except String EmergencyResponse × Database :=
  match db.get_journey journey_id with
  | none => (Except.error "Journey not found", db)
  | some journey =>
    let db1 := (db.update_journey_status journey_id "emergency" none now).2
    let user_id := journey.user_id
    let contacts := db1.get_emergency_contacts user_id
    let cur_latitude := details.latitude.getD journey.start_latitude
    let cur_longitude := details.longitude.getD journey.start_longitude
    let results := send_sos_notifications send "User"
      (render cur_latitude cur_longitude)
      (details.description.getD "Emergency assistance needed!") contacts
    let delivered := results.filter fun r =>
      r.status == "sent" || r.status == "simulated"
    let db2 := db1.create_sos user_id cur_latitude cur_longitude
      (details.description.getD "") (delivered.map NotifResult.contact_phone) now
    (Except.ok { emergency_id := emergency_id,
                 notified_contacts := delivered.length,
                 authorities_alerted := true,
                 notification_results := results }, db2)

/-! ## Geometry (`database.py` helpers and area queries) -/

/-- Python's `math.radians`. -/
noncomputable def radians (x : ℝ) : ℝ := x * Real.pi / 180

/-- `Database.calculate_distance` (lines 429-438): the Haversine
great-circle distance on a sphere of radius 6371 km. -/
noncomputable def calculate_distance (lat1 lon1 lat2 lon2 : ℝ) : ℝ :=
  let lon1r := radians lon1
  let lat1r := radians lat1
  let lon2r := radians lon2
  let lat2r := radians lat2
  let dlon := lon2r - lon1r
  let dlat := lat2r - lat1r
  let a := Real.sin (dlat / 2) ^ 2 +
    Real.cos lat1r * Real.cos lat2r * Real.sin (dlon / 2) ^ 2
  let c := 2 * Real.arcsin (Real.sqrt a)
  c * 6371

/-- Python's `round(x, 2)`.  (Exact half-way ties round half-to-even in
Python and half-up here; nothing below depends on a tie.) -/
noncomputable def round2 (x : ℝ) : ℝ := (round (x * 100) : ℤ) / 100

/-- The latitude half-width of the bounding-box pre-filter:
`radius_km / 111.0` (lines 213 and 333). -/
noncomputable def lat_range (radius_km : ℝ) : ℝ := radius_km / 111.0

/-- The denominator of the longitude half-width:
`111.0 * cos(radians(latitude))` — evaluated unconditionally, there is no
guard on `cos` (lines 214 and 334). -/
noncomputable def lng_denominator (latitude : ℝ) : ℝ :=
  111.0 * Real.cos (radians latitude)

/-- The longitude half-width of the bounding-box pre-filter:
`radius_km / (111.0 * cos(radians(latitude)))` (lines 214 and 334). -/
noncomputable def lng_range (radius_km latitude : ℝ) : ℝ :=
  radius_km / lng_denominator latitude

/-- The SQL `BETWEEN` pre-filter shared by `get_reports_by_area` and
`get_active_alerts`: point (`plat`, `plng`) lies inside the bounding box
around (`latitude`, `longitude`). -/
def box_pred (latitude longitude radius_km plat plng : ℝ) : Prop :=
  latitude - lat_range radius_km ≤ plat ∧
  plat ≤ latitude + lat_range radius_km ∧
  longitude - lng_range radius_km latitude ≤ plng ∧
  plng ≤ longitude + lng_range radius_km latitude

open Classical in
/-- `Database.get_reports_by_area` (lines 210-232): bounding-box SQL
pre-filter, then exact Haversine test `distance ≤ radius_km`; each hit is
returned with its distance rounded to 2 decimals. -/
noncomputable def Database.get_reports_by_area (db : Database)
    (latitude longitude radius_km : ℝ) : List (Report × ℝ) :=
  let boxed := db.reports.filter fun r =>
    decide (box_pred latitude longitude radius_km r.latitude r.longitude)
  boxed.filterMap fun r =>
    let distance := calculate_distance latitude longitude r.latitude r.longitude
    if distance ≤ radius_km then some (r, round2 distance) else none

/-- The sort key rank of the `get_active_alerts` lambda (line 353):
0 for "high", 1 for "medium", 2 otherwise. -/
def severity_rank (s : String) : ℕ :=
  if s = "high" then 0 else if s = "medium" then 1 else 2

open Classical in
/-- Boolean form of Python's ascending tuple order on
`(severity rank, distance_km)`, used by `list.sort`. -/
noncomputable def alert_key_le (x y : Alert × ℝ) : Bool :=
  decide (severity_rank x.1.severity < severity_rank y.1.severity ∨
    (severity_rank x.1.severity = severity_rank y.1.severity ∧ x.2 ≤ y.2))

open Classical in
/-- `Database.get_active_alerts` (lines 330-356): status filter plus
bounding box in SQL, exact Haversine test, distance rounded to 2 decimals,
then a stable sort by (severity rank, distance). -/
noncomputable def Database.get_active_alerts (db : Database)
    (latitude longitude radius_km : ℝ) : List (Alert × ℝ) :=
  let boxed := db.alerts.filter fun a =>
    a.status == "active" &&
      decide (box_pred latitude longitude radius_km a.latitude a.longitude)
  let alerts := boxed.filterMap fun a =>
    let distance := calculate_distance latitude longitude a.latitude a.longitude
    if distance ≤ radius_km then some (a, round2 distance) else none
  alerts.mergeSort alert_key_le

/-- `SafetyNavigatorHandler._check_destination_reached` (lines 479-498):
the source inlines the same Haversine formula as
`Database.calculate_distance`, with `lat1`/`lon1` the current location and
`lat2`/`lon2` the destination. -/
noncomputable def check_destination_reached (dest_latitude dest_longitude
    cur_latitude cur_longitude threshold_km : ℝ) : Prop :=
  calculate_distance cur_latitude cur_longitude dest_latitude dest_longitude ≤
    threshold_km

/-- Parsed classifier response for `analyze_current_location_safety`. -/
structure LocationAnalysis where
  nearby_risks : Option (List String)
  alerts : Option (List String)
  destination_reached : Option Bool

/-- The success dict of `update_location`. -/
structure LocationSafety where
  nearby_risks : List String
  alerts : List String
  destination_reached : Bool
  journey_status : String

open Classical in
/-- `SafetyNavigatorHandler.update_location` (lines 308-381).  Existence is
the only check.  With a parsed response, the reached flag is the agent's
value or, failing that, the 100 m Haversine test; if it is set the journey
status is updated to "completed" before returning.  With a malformed
response (`none`), the `except` branch computes the reached flag but does
not update the journey status. -/
noncomputable def update_location (db : Database) (journey_id : String)
    (cur_latitude cur_longitude : ℝ) (response : Option LocationAnalysis)
    (now : String) : Except String LocationSafety × Database :=
  match db.get_journey journey_id with
  | none => (Except.error "Journey not found", db)
  | some journey =>
    match response with
    | some analysis =>
      let nearby_risks := analysis.nearby_risks.getD []
      let alerts := analysis.alerts.getD []
      let dr0 := analysis.destination_reached.getD false
      let destination_reached :=
        if dr0 then dr0
        else decide (check_destination_reached journey.destination_latitude
          journey.destination_longitude cur_latitude cur_longitude 0.1)
      let db1 :=
        if destination_reached then
          (db.update_journey_status journey_id "completed" none now).2
        else db
      (Except.ok { nearby_risks := nearby_risks, alerts := alerts,
                   destination_reached := destination_reached,
                   journey_status :=
                     if destination_reached then "completed"
                     else journey.status }, db1)
    | none =>
      (Except.ok { nearby_risks := [], alerts := [],
                   destination_reached := decide (check_destination_reached
                     journey.destination_latitude
                     journey.destination_longitude cur_latitude
                     cur_longitude 0.1),
                   journey_status := journey.status }, db)

/-! ## Helper lemmas -/

/-- Looking a row up after an `UPDATE ... WHERE` that does not change
which rows match: the found row is the updated one. -/
theorem find?_updateWhere {α : Type} (p : α → Bool) (f : α → α) (l : List α)
    (hf : ∀ x, p (f x) = p x) :
    (updateWhere p f l).find? p = (l.find? p).map f := by
  induction l with
  | nil => rfl
  | cons x xs ih =>
    unfold updateWhere
    rw [List.map_cons]
    by_cases hx : p x = true
    · rw [if_pos hx, List.find?_cons_of_pos _ (by rw [hf]; exact hx),
        List.find?_cons_of_pos _ hx, Option.map_some']
    · have hx' : p x = false := by simpa using hx
      rw [if_neg (by simp [hx']), List.find?_cons_of_neg _ (by simp [hx']),
        List.find?_cons_of_neg _ (by simp [hx'])]
      exact ih

/-- Positional view of `updateWhere`. -/
theorem getElem?_updateWhere {α : Type} (p : α → Bool) (f : α → α)
    (l : List α) (i : ℕ) :
    (updateWhere p f l)[i]? = (l[i]?).map fun x => if p x then f x else x := by
  simp [updateWhere, List.getElem?_map]

/-- A point is at Haversine distance 0 from itself. -/
theorem calculate_distance_self (lat lng : ℝ) :
    calculate_distance lat lng lat lng = 0 := by
  simp [calculate_distance]

/-- Moving a journey to "completed" with no explicit end time stamps the
current time and rewrites the matching rows. -/
theorem journeys_after_status_completed (db : Database) (journey_id now : String) :
    (db.update_journey_status journey_id "completed" none now).2.journeys =
      updateWhere (fun x : Journey => x.id == journey_id)
        (fun x : Journey => { x with status := "completed", end_time := some now })
        db.journeys := by
  simp [Database.update_journey_status]

/-! ## C1 -/

/-- Empty store for the C1 scenario. -/
def dbC1 : Database :=
  { reports := [], journeys := [], alerts := [], emergency_contacts := [],
    sos_history := [] }

/-- C1: the claim says that on a classifier failure `submit_report`
falls back to the documented defaults AND still persists the report.  The
defaults are returned, but the `except` branch of the source never calls
`create_report`: with a malformed classifier response the store is left
without the report.  This theorem evaluates the code at the failing input
(report at (22.5726, 88.3639), unparseable classifier reply). -/
theorem C1_fallback_returns_defaults_but_does_not_persist :
    (submit_report dbC1 "report-1" "user-1" "incident text"
      22.5726 88.3639 none "t0").1.severity = "medium" ∧
    (submit_report dbC1 "report-1" "user-1" "incident text"
      22.5726 88.3639 none "t0").1.categories = ["general_concern"] ∧
    (submit_report dbC1 "report-1" "user-1" "incident text"
      22.5726 88.3639 none "t0").1.requires_immediate_action = false ∧
    (submit_report dbC1 "report-1" "user-1" "incident text"
      22.5726 88.3639 none "t0").2.reports = [] :=
  ⟨rfl, rfl, rfl, rfl⟩

/-! ## C3 -/

/-- A report already verified by three confirmations. -/
def reportC3 : Report :=
  { id := "r1", reporter_id := "u1", description := "d",
    anonymized_description := "d", latitude := 0, longitude := 0,
    severity := "medium", categories := ["general_concern"],
    status := "verified", verification_count := 3, created_at := "t0",
    updated_at := "t0" }

/-- Store for the C3 scenario. -/
def dbC3 : Database :=
  { reports := [reportC3], journeys := [], alerts := [],
    emergency_contacts := [], sos_history := [] }

/-- C3 counterexample: a report with `verification_count = 3` and status
"verified" is disputed; the source's dispute branch unconditionally sets
status to "disputed", reversing the supposedly one-way transition (the
count stays 3). -/
theorem C3_dispute_reverses_verified :
    (dbC3.get_report "r1").map Report.status = some "verified" ∧
    ((dbC3.verify_report "r1" "dispute" "t1").2.get_report "r1").map
      Report.status = some "disputed" ∧
    ((dbC3.verify_report "r1" "dispute" "t1").2.get_report "r1").map
      Report.verification_count = some 3 :=
  ⟨rfl, rfl, rfl⟩

/-- C3 amended: a confirm adds exactly 1 to the tracked report's count and
reaching 3 sets its status to "verified"; a dispute changes no count; but a
dispute always sets the status to "disputed", even on a verified report —
the verified status is not one-way.  Unknown ids fail and leave the store
unchanged. -/
theorem C3_count_monotone_but_dispute_overwrites (db : Database)
    (report_id now : String) :
    match db.get_report report_id with
    | none =>
        db.verify_report report_id "confirm" now = (false, db) ∧
        db.verify_report report_id "dispute" now = (false, db)
    | some r =>
        ((db.verify_report report_id "confirm" now).2.get_report
          report_id).map Report.verification_count =
            some (r.verification_count + 1) ∧
        ((db.verify_report report_id "confirm" now).2.get_report
          report_id).map Report.status =
            some (if r.verification_count + 1 ≥ 3 then "verified"
              else r.status) ∧
        (∀ i : ℕ, ((db.verify_report report_id "dispute" now).2.reports[i]?).map
            Report.verification_count =
          (db.reports[i]?).map Report.verification_count) ∧
        ((db.verify_report report_id "dispute" now).2.get_report
          report_id).map Report.status = some "disputed" := by
  cases h : db.get_report report_id with
  | none =>
    exact ⟨by simp [Database.verify_report, h], by simp [Database.verify_report, h]⟩
  | some r =>
    have h2 : db.reports.find? (fun x => x.id == report_id) = some r := h
    have e1 := find?_updateWhere (fun x : Report => x.id == report_id)
      (fun x : Report => { x with verification_count := r.verification_count + 1, updated_at := now })
      db.reports (fun x => rfl)
    have e2 := find?_updateWhere (fun x : Report => x.id == report_id)
      (fun x : Report => { x with status := "verified", updated_at := now })
      (updateWhere (fun x : Report => x.id == report_id)
        (fun x : Report => { x with verification_count := r.verification_count + 1, updated_at := now })
        db.reports)
      (fun x => rfl)
    have e3 := find?_updateWhere (fun x : Report => x.id == report_id)
      (fun x : Report => { x with status := "disputed", updated_at := now })
      db.reports (fun x => rfl)
    refine ⟨?_, ?_, ?_, ?_⟩
    · simp only [Database.verify_report, h]
      by_cases h3 : r.verification_count + 1 ≥ 3
      · rw [if_pos h3]
        simp only [Database.get_report, if_true]
        rw [e2, e1, h2]
        simp
      · rw [if_neg h3]
        simp only [Database.get_report, if_true]
        rw [e1, h2]
        simp
    · simp only [Database.verify_report, h]
      by_cases h3 : r.verification_count + 1 ≥ 3
      · rw [if_pos h3, if_pos h3]
        simp only [Database.get_report, if_true]
        rw [e2, e1, h2]
        simp
      · rw [if_neg h3, if_neg h3]
        simp only [Database.get_report, if_true]
        rw [e1, h2]
        simp
    · intro i
      simp only [Database.verify_report, h]
      rw [if_neg (by decide : ¬ ("dispute" = "confirm"))]
      simp only [getElem?_updateWhere]
      cases hx : db.reports[i]? with
      | none => rfl
      | some x =>
        simp only [Option.map_some']
        by_cases hpx : (x.id == report_id) = true
        · simp [hpx]
        · have hpx' : (x.id == report_id) = false := by simpa using hpx
          simp [hpx']
    · simp only [Database.verify_report, h]
      rw [if_neg (by decide : ¬ ("dispute" = "confirm"))]
      simp only [Database.get_report, if_true]
      rw [e3, h2]
      simp

/-! ## C6 -/

/-- Effect of one confirm on the tracked alert: the count becomes the
fetched count plus one and, exactly when that reaches 3 on a not-yet-high
alert, the severity is escalated to "high". -/
theorem verify_alert_confirm_step (db : Database) (alert_id now : String)
    (a : Alert) (ha : db.get_alert alert_id = some a) :
    (db.verify_alert alert_id "confirm" now).2.get_alert alert_id =
      some (if a.verification_count + 1 ≥ 3 ∧ a.severity ≠ "high"
        then { a with verification_count := a.verification_count + 1, severity := "high", updated_at := now }
        else { a with verification_count := a.verification_count + 1, updated_at := now }) := by
  have h2 : db.alerts.find? (fun x => x.id == alert_id) = some a := ha
  have e1 := find?_updateWhere (fun x : Alert => x.id == alert_id)
    (fun x : Alert => { x with verification_count := a.verification_count + 1, updated_at := now })
    db.alerts (fun x => rfl)
  have e2 := find?_updateWhere (fun x : Alert => x.id == alert_id)
    (fun x : Alert => { x with severity := "high", updated_at := now })
    (updateWhere (fun x : Alert => x.id == alert_id)
      (fun x : Alert => { x with verification_count := a.verification_count + 1, updated_at := now })
      db.alerts)
    (fun x => rfl)
  simp only [Database.verify_alert, ha]
  by_cases h3 : a.verification_count + 1 ≥ 3 ∧ a.severity ≠ "high"
  · rw [if_pos h3, if_pos h3]
    simp only [Database.get_alert, if_true]
    rw [e2, e1, h2]
    simp
  · rw [if_neg h3, if_neg h3]
    simp only [Database.get_alert, if_true]
    rw [e1, h2]
    simp

/-- C6: an alert created with non-high severity starts self-verified at
count 1 (that creation is its first confirmation).  Two further confirms
bring the count to 3 and escalate the severity to "high"; the next confirm
(the fourth confirmation) leaves the severity "high" and the count 4 — the
escalation branch does not fire again because the stored severity is
already "high". -/
theorem C6_alert_escalates_to_high_exactly_once (db : Database)
    (alert_id : String) (a : Alert) (now1 now2 now3 : String)
    (ha : db.get_alert alert_id = some a) (hsev : a.severity ≠ "high")
    (hcount : a.verification_count = 1) :
    ((db.verify_alert alert_id "confirm" now1).2.get_alert alert_id) =
      some { a with verification_count := 2, updated_at := now1 } ∧
    (((db.verify_alert alert_id "confirm" now1).2.verify_alert alert_id
        "confirm" now2).2.get_alert alert_id) =
      some { a with verification_count := 3, severity := "high", updated_at := now2 } ∧
    ((((db.verify_alert alert_id "confirm" now1).2.verify_alert alert_id
        "confirm" now2).2.verify_alert alert_id "confirm" now3).2.get_alert
        alert_id) =
      some { a with verification_count := 4, severity := "high", updated_at := now3 } := by
  have s1 := verify_alert_confirm_step db alert_id now1 a ha
  rw [hcount] at s1
  rw [if_neg (by intro hc; exact absurd hc.1 (by norm_num))] at s1
  have s1' : (db.verify_alert alert_id "confirm" now1).2.get_alert alert_id =
      some { a with verification_count := 2, updated_at := now1 } := s1
  have s2 := verify_alert_confirm_step
    (db.verify_alert alert_id "confirm" now1).2 alert_id now2
    { a with verification_count := 2, updated_at := now1 } s1'
  rw [if_pos (by exact ⟨by norm_num, hsev⟩)] at s2
  have s2' : ((db.verify_alert alert_id "confirm" now1).2.verify_alert
      alert_id "confirm" now2).2.get_alert alert_id =
      some { a with verification_count := 3, severity := "high", updated_at := now2 } := s2
  have s3 := verify_alert_confirm_step
    ((db.verify_alert alert_id "confirm" now1).2.verify_alert alert_id
      "confirm" now2).2 alert_id now3
    { a with verification_count := 3, severity := "high", updated_at := now2 } s2'
  rw [if_neg (by intro hc; exact hc.2 rfl)] at s3
  exact ⟨s1', s2', s3⟩

/-- A freshly created alert of medium severity (self-verified, count 1). -/
def alertC6 : Alert :=
  { id := "a1", reporter_id := "u1", alert_type := "general",
    description := "d", latitude := 0, longitude := 0, severity := "medium",
    status := "active", verification_count := 1, created_at := "t0",
    updated_at := "t0" }

/-- Store for the C6 scenario. -/
def dbC6 : Database :=
  { reports := [], journeys := [], alerts := [alertC6],
    emergency_contacts := [], sos_history := [] }

/-- Witness for C6 at a concrete medium-severity alert. -/
theorem C6_alert_escalates_to_high_exactly_once_witness :
    ((dbC6.verify_alert "a1" "confirm" "t1").2.get_alert "a1") =
      some { alertC6 with verification_count := 2, updated_at := "t1" } ∧
    (((dbC6.verify_alert "a1" "confirm" "t1").2.verify_alert "a1"
        "confirm" "t2").2.get_alert "a1") =
      some { alertC6 with verification_count := 3, severity := "high", updated_at := "t2" } ∧
    ((((dbC6.verify_alert "a1" "confirm" "t1").2.verify_alert "a1"
        "confirm" "t2").2.verify_alert "a1" "confirm" "t3").2.get_alert
        "a1") =
      some { alertC6 with verification_count := 4, severity := "high", updated_at := "t3" } :=
  C6_alert_escalates_to_high_exactly_once dbC6 "a1" alertC6 "t1" "t2" "t3"
    rfl (by decide) rfl

/-! ## C2 -/

/-- A journey already in the terminal status "completed". -/
def journeyC2 : Journey :=
  { id := "j1", user_id := "u1", start_latitude := 0, start_longitude := 0,
    destination_latitude := 50, destination_longitude := 60,
    travel_mode := "walking", status := "completed",
    route_safety := { overall_risk := "medium", risk_areas_on_route := [], time_factor := "day", alternative_routes_available := false },
    start_time := "t0", end_time := some "t1" }

/-- Store for the C2 scenario. -/
def dbC2 : Database :=
  { reports := [], journeys := [journeyC2], alerts := [],
    emergency_contacts := [], sos_history := [] }

/-- Store after triggering an emergency on the completed journey. -/
def dbC2e : Database :=
  (trigger_emergency dbC2 "j1" ⟨none, none, none⟩ (fun _ _ => "simulated")
    (fun _ _ => "q") "e1" "t2").2

/-- C2 counterexample: the handlers check only existence, not status.  A
completed journey is moved to "emergency" by `trigger_emergency`; the
resulting emergency journey is moved back to "completed" by `end_journey`;
and `update_location` on the completed journey does not fail (it returns a
success payload). -/
theorem C2_terminal_states_can_be_left :
    (dbC2.get_journey "j1").map Journey.status = some "completed" ∧
    (dbC2e.get_journey "j1").map Journey.status = some "emergency" ∧
    ((end_journey dbC2e "j1" "t3").2.get_journey "j1").map Journey.status =
      some "completed" ∧
    ∃ u, (update_location dbC2 "j1" 0 0
      (some ⟨some [], some [], some true⟩) "t2").1 = Except.ok u :=
  ⟨rfl, rfl, rfl, ⟨_, rfl⟩⟩

/-- C2 amended: an unknown journey id makes `trigger_emergency`,
`end_journey` and `update_location` fail with "Journey not found" and leave
the store unchanged; but on any existing journey — whatever its status,
including the terminal "completed" and "emergency" — `trigger_emergency`
sets the status to "emergency", `end_journey` sets it to "completed", and
`update_location` succeeds instead of failing. -/
theorem C2_transitions_only_guarded_by_existence (db : Database)
    (journey_id : String) (details : EmergencyDetails)
    (send : String → String → String) (render : ℝ → ℝ → String)
    (emergency_id now : String) (cur_latitude cur_longitude : ℝ)
    (response : Option LocationAnalysis) :
    match db.get_journey journey_id with
    | none =>
        trigger_emergency db journey_id details send render emergency_id now =
          (Except.error "Journey not found", db) ∧
        end_journey db journey_id now = (Except.error "Journey not found", db) ∧
        update_location db journey_id cur_latitude cur_longitude response now =
          (Except.error "Journey not found", db)
    | some _ =>
        ((trigger_emergency db journey_id details send render emergency_id
            now).2.get_journey journey_id).map Journey.status =
          some "emergency" ∧
        ((end_journey db journey_id now).2.get_journey journey_id).map
          Journey.status = some "completed" ∧
        (update_location db journey_id cur_latitude cur_longitude
          response now).1.isOk = true := by
  cases h : db.get_journey journey_id with
  | none =>
    exact ⟨by simp [trigger_emergency, h], by simp [end_journey, h],
      by simp [update_location, h]⟩
  | some j =>
    have h2 : db.journeys.find? (fun x => x.id == journey_id) = some j := h
    refine ⟨?_, ?_, ?_⟩
    · have step : (trigger_emergency db journey_id details send render
          emergency_id now).2.journeys =
          updateWhere (fun x : Journey => x.id == journey_id)
            (fun x : Journey => { x with status := "emergency" })
            db.journeys := by
        simp [trigger_emergency, Database.get_journey, h2, Database.create_sos,
          Database.update_journey_status]
      have e := find?_updateWhere (fun x : Journey => x.id == journey_id)
        (fun x : Journey => { x with status := "emergency" })
        db.journeys (fun x => rfl)
      simp only [Database.get_journey, step, e, h2]
      rfl
    · have step : (end_journey db journey_id now).2.journeys =
          updateWhere (fun x : Journey => x.id == journey_id)
            (fun x : Journey => { x with status := "completed", end_time := some now })
            db.journeys := by
        simp [end_journey, Database.get_journey, h2,
          Database.update_journey_status]
      have e := find?_updateWhere (fun x : Journey => x.id == journey_id)
        (fun x : Journey => { x with status := "completed", end_time := some now })
        db.journeys (fun x => rfl)
      simp only [Database.get_journey, step, e, h2]
      rfl
    · cases response with
      | none => simp [update_location, h, Except.isOk, Except.toBool]
      | some analysis => simp [update_location, h, Except.isOk, Except.toBool]

/-! ## C10 -/

/-- C10: when `emergency_details` carries neither latitude nor longitude,
`trigger_emergency` uses the journey's start location both for the SOS
notifications (the rendered maps-link location) and for the recorded
`SosEvent`. -/
theorem C10_missing_location_falls_back_to_journey_start (db : Database)
    (journey_id : String) (j : Journey) (send : String → String → String)
    (render : ℝ → ℝ → String) (emergency_id now : String)
    (description : Option String)
    (ha : db.get_journey journey_id = some j) :
    (trigger_emergency db journey_id ⟨none, none, description⟩ send render
        emergency_id now).2.sos_history =
      db.sos_history ++
        [{ user_id := j.user_id, latitude := j.start_latitude,
           longitude := j.start_longitude, message := description.getD "",
           contacts_notified :=
             ((send_sos_notifications send "User"
                 (render j.start_latitude j.start_longitude)
                 (description.getD "Emergency assistance needed!")
                 (db.get_emergency_contacts j.user_id)).filter
               (fun r => r.status == "sent" || r.status == "simulated")).map
               NotifResult.contact_phone,
           created_at := now }] ∧
    ∃ res, (trigger_emergency db journey_id ⟨none, none, description⟩ send
        render emergency_id now).1 = Except.ok res ∧
      res.notification_results = send_sos_notifications send "User"
        (render j.start_latitude j.start_longitude)
        (description.getD "Emergency assistance needed!")
        (db.get_emergency_contacts j.user_id) := by
  have h2 : db.journeys.find? (fun x => x.id == journey_id) = some j := ha
  constructor
  · simp [trigger_emergency, Database.get_journey, h2, Database.create_sos,
      Database.update_journey_status, Database.get_emergency_contacts]
  · have hres : (trigger_emergency db journey_id ⟨none, none, description⟩
        send render emergency_id now).1 =
        Except.ok (EmergencyResponse.mk emergency_id
          ((send_sos_notifications send "User"
              (render j.start_latitude j.start_longitude)
              (description.getD "Emergency assistance needed!")
              (db.get_emergency_contacts j.user_id)).filter
            (fun r => r.status == "sent" || r.status == "simulated")).length
          true
          (send_sos_notifications send "User"
            (render j.start_latitude j.start_longitude)
            (description.getD "Emergency assistance needed!")
            (db.get_emergency_contacts j.user_id))) := by
      simp [trigger_emergency, Database.get_journey, h2,
        Database.get_emergency_contacts, Database.update_journey_status]
    exact ⟨_, hres, rfl⟩

/-- A fresh active journey starting at (12.5, 77.6). -/
def journeyC10 : Journey :=
  { id := "j1", user_id := "u1", start_latitude := 12.5,
    start_longitude := 77.6, destination_latitude := 13,
    destination_longitude := 78, travel_mode := "walking",
    status := "active",
    route_safety := { overall_risk := "medium", risk_areas_on_route := [], time_factor := "day", alternative_routes_available := false },
    start_time := "t0", end_time := none }

/-- Store for the C10 witness. -/
def dbC10 : Database :=
  { reports := [], journeys := [journeyC10], alerts := [],
    emergency_contacts := [], sos_history := [] }

/-- Witness for C10 at a concrete journey with the details omitting both
coordinates. -/
theorem C10_missing_location_falls_back_to_journey_start_witness :
    (trigger_emergency dbC10 "j1" ⟨none, none, some "help"⟩
        (fun _ _ => "simulated") (fun _ _ => "q") "e1" "t2").2.sos_history =
      dbC10.sos_history ++
        [{ user_id := journeyC10.user_id,
           latitude := journeyC10.start_latitude,
           longitude := journeyC10.start_longitude,
           message := (some "help").getD "",
           contacts_notified :=
             ((send_sos_notifications (fun _ _ => "simulated") "User"
                 ((fun _ _ => "q") journeyC10.start_latitude
                   journeyC10.start_longitude)
                 ((some "help").getD "Emergency assistance needed!")
                 (dbC10.get_emergency_contacts journeyC10.user_id)).filter
               (fun r => r.status == "sent" || r.status == "simulated")).map
               NotifResult.contact_phone,
           created_at := "t2" }] ∧
    ∃ res, (trigger_emergency dbC10 "j1" ⟨none, none, some "help"⟩
        (fun _ _ => "simulated") (fun _ _ => "q") "e1" "t2").1 =
        Except.ok res ∧
      res.notification_results = send_sos_notifications
        (fun _ _ => "simulated") "User"
        ((fun _ _ => "q") journeyC10.start_latitude journeyC10.start_longitude)
        ((some "help").getD "Emergency assistance needed!")
        (dbC10.get_emergency_contacts journeyC10.user_id) :=
  C10_missing_location_falls_back_to_journey_start dbC10 "j1" journeyC10
    (fun _ _ => "simulated") (fun _ _ => "q") "e1" "t2" (some "help") rfl

/-! ## C9 -/

/-- C9: `send_sos_notifications` produces exactly one result per contact
with a present, non-empty phone — contacts without one are silently
skipped — and the number dialled and recorded as `contact_phone` is the
contact's phone run through `with_country_code`, which prepends "+" when
it is missing. -/
theorem C9_sos_fanout_one_result_per_phone_contact
    (send : String → String → String)
    (user_name location_q message : String)
    (contacts : List EmergencyContact) :
    send_sos_notifications send user_name location_q message contacts =
      (contacts.filter has_phone).map (fun c =>
        { status := send (with_country_code (c.phone.getD ""))
            (sos_message user_name location_q message),
          contact_name := c.name,
          contact_phone := with_country_code (c.phone.getD "") }) ∧
    (send_sos_notifications send user_name location_q message
        contacts).length = (contacts.filter has_phone).length := by
  have hmain : send_sos_notifications send user_name location_q message
      contacts =
      (contacts.filter has_phone).map (fun c =>
        { status := send (with_country_code (c.phone.getD ""))
            (sos_message user_name location_q message),
          contact_name := c.name,
          contact_phone := with_country_code (c.phone.getD "") }) := by
    induction contacts with
    | nil => rfl
    | cons c cs ih =>
      cases hp : c.phone with
      | none =>
        have hhp : has_phone c = false := by simp [has_phone, hp]
        rw [List.filter_cons_of_neg (by simp [hhp])]
        rw [← ih]
        simp [send_sos_notifications, List.filterMap_cons, hp]
      | some p =>
        by_cases hpe : p = ""
        · have hhp : has_phone c = false := by simp [has_phone, hp, hpe]
          rw [List.filter_cons_of_neg (by simp [hhp])]
          rw [← ih]
          simp [send_sos_notifications, List.filterMap_cons, hp, hpe]
        · have hhp : has_phone c = true := by simp [has_phone, hp, hpe]
          rw [List.filter_cons_of_pos hhp, List.map_cons]
          rw [← ih]
          simp [send_sos_notifications, List.filterMap_cons, hp, hpe,
            with_country_code]
  exact ⟨hmain, by rw [hmain, List.length_map]⟩

/-! ## C5 -/

/-- C5: the claim says the longitude pre-filter is guarded against
`cos(latitude) → 0` with a fall back to a full-longitude scan.  No such
guard exists in the source: `radius_km / (111.0 * cos(radians(latitude)))`
is evaluated unconditionally on every area query, and at the poles the
mathematical value of its denominator is exactly 0.  (Python raises no
`ZeroDivisionError` only because the floating-point `cos(radians(90))`
is about 6.1e-17 rather than 0.) -/
theorem C5_lng_prefilter_denominator_vanishes_at_poles :
    lng_denominator 90 = 0 ∧ lng_denominator (-90) = 0 := by
  constructor
  · unfold lng_denominator radians
    rw [show (90:ℝ) * Real.pi / 180 = Real.pi / 2 by ring]
    simp [Real.cos_pi_div_two]
  · unfold lng_denominator radians
    rw [show (-90:ℝ) * Real.pi / 180 = -(Real.pi / 2) by ring]
    simp [Real.cos_pi_div_two]

/-! ## C8 -/

/-- An active journey whose destination is (10, 20). -/
def journeyC8 : Journey :=
  { id := "j1", user_id := "u1", start_latitude := 0, start_longitude := 0,
    destination_latitude := 10, destination_longitude := 20,
    travel_mode := "walking", status := "active",
    route_safety := { overall_risk := "medium", risk_areas_on_route := [], time_factor := "day", alternative_routes_available := false },
    start_time := "t0", end_time := none }

/-- Store for the C8 scenario. -/
def dbC8 : Database :=
  { reports := [], journeys := [journeyC8], alerts := [],
    emergency_contacts := [], sos_history := [] }

open Classical in
/-- C8 counterexample: a location update arriving exactly at the
destination (distance 0 ≤ 0.1 km) while the classifier response is
malformed returns `destination_reached = true`, yet the stored journey
status stays "active": the `except` branch never calls
`update_journey_status`, so the journey is not completed before
returning. -/
theorem C8_reached_but_not_completed_on_classifier_failure :
    (update_location dbC8 "j1" 10 20 none "t1").1 =
      Except.ok (LocationSafety.mk [] [] true "active") ∧
    (update_location dbC8 "j1" 10 20 none "t1").2 = dbC8 := by
  have hj : dbC8.get_journey "j1" = some journeyC8 := rfl
  have hd : check_destination_reached journeyC8.destination_latitude
      journeyC8.destination_longitude 10 20 0.1 := by
    show calculate_distance 10 20 journeyC8.destination_latitude
      journeyC8.destination_longitude ≤ 0.1
    rw [show journeyC8.destination_latitude = (10:ℝ) from rfl,
      show journeyC8.destination_longitude = (20:ℝ) from rfl,
      calculate_distance_self]
    norm_num
  have hdec : decide (check_destination_reached journeyC8.destination_latitude
      journeyC8.destination_longitude 10 20 0.1) = true := decide_eq_true hd
  constructor
  · simp only [update_location, hj, hdec]
    rfl
  · simp only [update_location, hj]

open Classical in
/-- C8 amended: `destinationReached` is true iff the classifier reports it
or the Haversine distance to the destination is ≤ 0.1 km, in both the
parsed and the malformed-response paths; but only the parsed path updates
the stored status to "completed" before returning — on a malformed
classifier response the reached flag is returned while the store is left
unchanged. -/
theorem C8_destination_threshold_and_completion (db : Database)
    (journey_id : String) (cur_latitude cur_longitude : ℝ)
    (response : Option LocationAnalysis) (now : String) :
    match db.get_journey journey_id, response with
    | none, _ =>
        update_location db journey_id cur_latitude cur_longitude response
          now = (Except.error "Journey not found", db)
    | some j, some analysis =>
        ∃ u, (update_location db journey_id cur_latitude cur_longitude
            (some analysis) now).1 = Except.ok u ∧
          (u.destination_reached = true ↔
            (analysis.destination_reached.getD false = true ∨
              calculate_distance cur_latitude cur_longitude
                j.destination_latitude j.destination_longitude ≤ 0.1)) ∧
          u.journey_status =
            (if u.destination_reached then "completed" else j.status) ∧
          ((update_location db journey_id cur_latitude cur_longitude
              (some analysis) now).2.get_journey journey_id).map
            Journey.status =
            some (if u.destination_reached then "completed" else j.status)
    | some j, none =>
        ∃ u, (update_location db journey_id cur_latitude cur_longitude
            none now).1 = Except.ok u ∧
          (u.destination_reached = true ↔
            calculate_distance cur_latitude cur_longitude
              j.destination_latitude j.destination_longitude ≤ 0.1) ∧
          u.journey_status = j.status ∧
          (update_location db journey_id cur_latitude cur_longitude
            none now).2 = db := by
  have hcompl : ∀ (now : String),
      ((db.update_journey_status journey_id "completed" none now).2.get_journey
        journey_id).map Journey.status =
        (db.get_journey journey_id).map (fun _ => "completed") := by
    intro n
    have e := find?_updateWhere (fun x : Journey => x.id == journey_id)
      (fun x : Journey => { x with status := "completed", end_time := some n })
      db.journeys (fun x => rfl)
    simp only [Database.get_journey, journeys_after_status_completed, e]
    cases db.journeys.find? (fun x => x.id == journey_id) <;> rfl
  cases h : db.get_journey journey_id with
  | none =>
    cases response with
    | none => simp [update_location, h]
    | some analysis => simp [update_location, h]
  | some j =>
    cases response with
    | none =>
      by_cases hd : calculate_distance cur_latitude cur_longitude
        j.destination_latitude j.destination_longitude ≤ 0.1
      · have hdec : decide (check_destination_reached j.destination_latitude
            j.destination_longitude cur_latitude cur_longitude 0.1) = true :=
          decide_eq_true hd
        refine ⟨LocationSafety.mk [] [] true j.status, ?_, ?_, rfl, ?_⟩
        · simp only [update_location, h, hdec]
        · simp [hd]
        · simp only [update_location, h]
      · have hdec : decide (check_destination_reached j.destination_latitude
            j.destination_longitude cur_latitude cur_longitude 0.1) = false :=
          decide_eq_false hd
        refine ⟨LocationSafety.mk [] [] false j.status, ?_, ?_, rfl, ?_⟩
        · simp only [update_location, h, hdec]
        · simp [hd]
        · simp only [update_location, h]
    | some analysis =>
      cases hb : analysis.destination_reached.getD false with
      | true =>
        refine ⟨LocationSafety.mk (analysis.nearby_risks.getD [])
          (analysis.alerts.getD []) true "completed", ?_, ?_, ?_, ?_⟩
        · simp only [update_location, h, hb, if_true]
        · simp [hb]
        · simp
        · simp only [update_location, h, hb, if_true]
          rw [hcompl now, h]
          rfl
      | false =>
        by_cases hd : calculate_distance cur_latitude cur_longitude
          j.destination_latitude j.destination_longitude ≤ 0.1
        · have hdec : decide (check_destination_reached j.destination_latitude
              j.destination_longitude cur_latitude cur_longitude 0.1) =
              true := decide_eq_true hd
          refine ⟨LocationSafety.mk (analysis.nearby_risks.getD [])
            (analysis.alerts.getD []) true "completed", ?_, ?_, ?_, ?_⟩
          · simp only [update_location, h, hb, Bool.false_eq_true, if_false,
              hdec]
            simp
          · simp [hd]
          · simp
          · simp only [update_location, h, hb, Bool.false_eq_true, if_false,
              hdec]
            simp [hcompl now, h]
        · have hdec : decide (check_destination_reached j.destination_latitude
              j.destination_longitude cur_latitude cur_longitude 0.1) =
              false := decide_eq_false hd
          refine ⟨LocationSafety.mk (analysis.nearby_risks.getD [])
            (analysis.alerts.getD []) false j.status, ?_, ?_, ?_, ?_⟩
          · simp only [update_location, h, hb, Bool.false_eq_true, if_false,
              hdec]
          · simp [hb, hd]
          · simp
          · simp only [update_location, h, hb, Bool.false_eq_true, if_false,
              hdec]
            simp [h]

/-! ## C4 -/

/-- Exact value of the Haversine distance from (89, 0) to the pole point
(90, 180): the `cos(lat2)` factor vanishes, leaving 6371·π/180
(≈ 111.19 km). -/
theorem dist_pole : calculate_distance 89 0 90 180 = 6371 * Real.pi / 180 := by
  have hpi := Real.pi_pos
  simp only [calculate_distance, radians]
  rw [show (90:ℝ) * Real.pi / 180 - 89 * Real.pi / 180 = Real.pi / 180 by ring,
    show (180:ℝ) * Real.pi / 180 - 0 * Real.pi / 180 = Real.pi by ring,
    show (90:ℝ) * Real.pi / 180 = Real.pi / 2 by ring,
    Real.cos_pi_div_two]
  rw [mul_zero, zero_mul, add_zero]
  rw [show Real.pi / 180 / 2 = Real.pi / 360 by ring]
  rw [Real.sqrt_sq (Real.sin_nonneg_of_nonneg_of_le_pi (by positivity)
    (by linarith))]
  rw [Real.arcsin_sin (by linarith) (by linarith)]
  ring

/-- The pole point is within 112 km of (89, 0). -/
theorem dist_pole_le : calculate_distance 89 0 90 180 ≤ 112 := by
  rw [dist_pole]
  have h := Real.pi_lt_d2
  nlinarith

/-- Lower bound on sin(1°), enough to bound the longitude pre-filter. -/
theorem sin_one_deg_lb : Real.sin (Real.pi / 180) > 112 / 19980 := by
  have hlt := Real.pi_lt_d2
  have hgt := Real.pi_gt_d6
  have hx1 : (0:ℝ) < Real.pi / 180 := by positivity
  have hx2 : Real.pi / 180 ≤ 1 := by linarith
  have h := Real.sin_gt_sub_cube hx1 hx2
  have hcube : (Real.pi / 180) ^ 3 < (0.0175 : ℝ) ^ 3 := by
    have hub : Real.pi / 180 < 0.0175 := by linarith
    exact pow_lt_pow_left₀ hub hx1.le (by norm_num)
  nlinarith

/-- The longitude half-width of the pre-filter at latitude 89 with radius
112 km stays below 180 degrees, so longitude 180 falls outside the box. -/
theorem lng_range_89_lt : lng_range 112 89 < 180 := by
  have ec : Real.cos (radians 89) = Real.sin (Real.pi / 180) := by
    rw [show radians 89 = Real.pi / 2 - Real.pi / 180 by unfold radians; ring]
    exact Real.cos_pi_div_two_sub _
  have hs := sin_one_deg_lb
  unfold lng_range lng_denominator
  rw [ec]
  rw [div_lt_iff (by nlinarith)]
  nlinarith

/-- A report stored at the north pole, longitude 180. -/
def reportC4 : Report :=
  { id := "p1", reporter_id := "u1", description := "d",
    anonymized_description := "d", latitude := 90, longitude := 180,
    severity := "medium", categories := ["general_concern"],
    status := "submitted", verification_count := 0, created_at := "t0",
    updated_at := "t0" }

/-- Store for the C4 scenario. -/
def dbC4 : Database :=
  { reports := [reportC4], journeys := [], alerts := [],
    emergency_contacts := [], sos_history := [] }

open Classical in
/-- C4 counterexample: the stored report at (90, 180) is within the true
Haversine distance 112 km of the center (89, 0), yet the area search
returns nothing: the bounding-box pre-filter (longitude half-width
112/(111·cos 89°) < 180 degrees) excludes it before the exact distance
test runs, so the search does not return exactly the records within the
radius. -/
theorem C4_within_radius_record_excluded_by_box :
    calculate_distance 89 0 90 180 ≤ 112 ∧
    dbC4.get_reports_by_area 89 0 112 = [] := by
  refine ⟨dist_pole_le, ?_⟩
  have hbox : ¬ box_pred 89 0 112 reportC4.latitude reportC4.longitude := by
    intro hb
    have h4 : reportC4.longitude ≤ 0 + lng_range 112 89 := hb.2.2.2
    rw [show reportC4.longitude = (180:ℝ) from rfl] at h4
    have := lng_range_89_lt
    linarith
  have hdec : decide (box_pred 89 0 112 reportC4.latitude
      reportC4.longitude) = false := decide_eq_false hbox
  simp only [Database.get_reports_by_area]
  rw [show dbC4.reports = [reportC4] from rfl]
  rw [List.filter_cons_of_neg (by simp [hdec])]
  rfl

open Classical in
/-- C4 amended: the area search returns exactly the stored reports that
pass the bounding-box pre-filter AND lie within the true Haversine
distance, each paired with its distance rounded to 2 decimals; the
pre-filter can exclude in-radius records (see the counterexample), so
"exactly the records within the distance" holds only relative to the box.
With radius 0 only coincident points are returned. -/
theorem C4_search_is_box_then_exact_distance (db : Database)
    (latitude longitude radius_km : ℝ) (p : Report × ℝ) :
    (p ∈ db.get_reports_by_area latitude longitude radius_km ↔
      p.1 ∈ db.reports ∧
      box_pred latitude longitude radius_km p.1.latitude p.1.longitude ∧
      calculate_distance latitude longitude p.1.latitude p.1.longitude ≤
        radius_km ∧
      p.2 = round2 (calculate_distance latitude longitude p.1.latitude
        p.1.longitude)) ∧
    (p ∈ db.get_reports_by_area latitude longitude 0 ↔
      p.1 ∈ db.reports ∧ p.1.latitude = latitude ∧
      p.1.longitude = longitude ∧ p.2 = 0) := by
  have key : ∀ rad : ℝ, p ∈ db.get_reports_by_area latitude longitude rad ↔
      p.1 ∈ db.reports ∧
      box_pred latitude longitude rad p.1.latitude p.1.longitude ∧
      calculate_distance latitude longitude p.1.latitude p.1.longitude ≤
        rad ∧
      p.2 = round2 (calculate_distance latitude longitude p.1.latitude
        p.1.longitude) := by
    intro rad
    simp only [Database.get_reports_by_area, List.mem_filterMap,
      List.mem_filter]
    constructor
    · rintro ⟨a, ⟨hmem, hbox⟩, hfa⟩
      by_cases hd : calculate_distance latitude longitude a.latitude
          a.longitude ≤ rad
      · rw [if_pos hd] at hfa
        injection hfa with hpair
        subst hpair
        exact ⟨hmem, of_decide_eq_true hbox, hd, rfl⟩
      · rw [if_neg hd] at hfa
        exact absurd hfa (by simp)
    · rintro ⟨hmem, hbox, hd, hp2⟩
      refine ⟨p.1, ⟨hmem, decide_eq_true hbox⟩, ?_⟩
      rw [if_pos hd, ← hp2]
  refine ⟨key radius_km, ?_⟩
  rw [key 0]
  have hlr : lat_range 0 = 0 := by simp [lat_range]
  have hgr : lng_range 0 latitude = 0 := by simp [lng_range]
  constructor
  · rintro ⟨hmem, hbox, hd, hp2⟩
    obtain ⟨hb1, hb2, hb3, hb4⟩ := hbox
    rw [hlr] at hb1 hb2
    rw [hgr] at hb3 hb4
    have hlat : p.1.latitude = latitude := le_antisymm (by linarith)
      (by linarith)
    have hlng : p.1.longitude = longitude := le_antisymm (by linarith)
      (by linarith)
    refine ⟨hmem, hlat, hlng, ?_⟩
    rw [hp2, hlat, hlng, calculate_distance_self]
    simp [round2]
  · rintro ⟨hmem, hlat, hlng, hp2⟩
    refine ⟨hmem, ⟨?_, ?_, ?_, ?_⟩, ?_, ?_⟩
    · rw [hlr, hlat]; linarith
    · rw [hlr, hlat]; linarith
    · rw [hgr, hlng]; linarith
    · rw [hgr, hlng]; linarith
    · rw [hlat, hlng, calculate_distance_self]
    · rw [hlat, hlng, calculate_distance_self, hp2]
      simp [round2]

/-! ## C7 -/

open Classical in
/-- Transitivity of the (severity rank, distance) tuple order. -/
theorem alert_key_le_trans (a b c : Alert × ℝ)
    (hab : alert_key_le a b = true) (hbc : alert_key_le b c = true) :
    alert_key_le a c = true := by
  simp only [alert_key_le, decide_eq_true_iff] at hab hbc ⊢
  rcases hab with h1 | ⟨h1, h2⟩ <;> rcases hbc with h3 | ⟨h3, h4⟩
  · exact Or.inl (lt_trans h1 h3)
  · exact Or.inl (h3 ▸ h1)
  · exact Or.inl (h1 ▸ h3)
  · exact Or.inr ⟨h1.trans h3, le_trans h2 h4⟩

open Classical in
/-- Totality of the (severity rank, distance) tuple order. -/
theorem alert_key_le_total (a b : Alert × ℝ) :
    (alert_key_le a b || alert_key_le b a) = true := by
  simp only [alert_key_le, Bool.or_eq_true, decide_eq_true_iff]
  rcases lt_trichotomy (severity_rank a.1.severity)
    (severity_rank b.1.severity) with h | h | h
  · exact Or.inl (Or.inl h)
  · rcases le_total a.2 b.2 with h2 | h2
    · exact Or.inl (Or.inr ⟨h, h2⟩)
    · exact Or.inr (Or.inr ⟨h.symm, h2⟩)
  · exact Or.inr (Or.inl h)

open Classical in
/-- C7: `get_active_alerts` returns exactly the stored alerts with status
"active" that pass the bounding box and the exact Haversine radius test,
each with its distance rounded to 2 decimals, and the returned list is
sorted by severity rank ("high" before "medium" before "low") and then by
ascending (rounded) distance. -/
theorem C7_active_alerts_filtered_and_sorted (db : Database)
    (latitude longitude radius_km : ℝ) (x : Alert × ℝ) :
    (x ∈ db.get_active_alerts latitude longitude radius_km ↔
      x.1 ∈ db.alerts ∧ x.1.status = "active" ∧
      box_pred latitude longitude radius_km x.1.latitude x.1.longitude ∧
      calculate_distance latitude longitude x.1.latitude x.1.longitude ≤
        radius_km ∧
      x.2 = round2 (calculate_distance latitude longitude x.1.latitude
        x.1.longitude)) ∧
    (db.get_active_alerts latitude longitude radius_km).Pairwise
      (fun a b => severity_rank a.1.severity < severity_rank b.1.severity ∨
        (severity_rank a.1.severity = severity_rank b.1.severity ∧
          a.2 ≤ b.2)) := by
  constructor
  · simp only [Database.get_active_alerts, List.mem_mergeSort,
      List.mem_filterMap, List.mem_filter, Bool.and_eq_true, beq_iff_eq]
    constructor
    · rintro ⟨a, ⟨hmem, hstat, hbox⟩, hfa⟩
      by_cases hd : calculate_distance latitude longitude a.latitude
          a.longitude ≤ radius_km
      · rw [if_pos hd] at hfa
        injection hfa with hpair
        subst hpair
        exact ⟨hmem, hstat, of_decide_eq_true hbox, hd, rfl⟩
      · rw [if_neg hd] at hfa
        exact absurd hfa (by simp)
    · rintro ⟨hmem, hstat, hbox, hd, hp2⟩
      refine ⟨x.1, ⟨hmem, hstat, decide_eq_true hbox⟩, ?_⟩
      rw [if_pos hd, ← hp2]
  · simp only [Database.get_active_alerts]
    exact List.Pairwise.imp
      (fun hab => by
        simpa only [alert_key_le, decide_eq_true_iff] using hab)
      (List.sorted_mergeSort alert_key_le_trans alert_key_le_total _)

end SafePulse
